import Mathlib

/-!
Verification of the Birthday Picker utility module
(`BirthdayPicker/birthdayPickerUtils.ts`).

The TypeScript functions are shallowly embedded below.  JavaScript numbers
appearing here are always used as integers by the source, so they are
modelled as `Int` (parsing digits produces `Nat`, coerced on output).
Optional parameters (`number | undefined`) are modelled as `Option Int`;
JavaScript truthiness on a numeric option (`!x`) is `numFalsy`.
JavaScript strings are modelled as `String`, with `Number.prototype.toString`
modelled by `natToString` / `intToString` (decimal digits, `-` sign),
`String.prototype.trim` by `jsTrim`, `toLowerCase` by `jsToLower`,
`includes` by `jsIncludes` and `startsWith` by `jsStartsWith`.
-/

namespace BirthdayPicker

/-- Decimal digit characters of a natural number, most significant first,
computed with a fuel argument so that the definition is structural
(`natToDigits` below supplies sufficient fuel). -/
def natToDigitsAux : Nat → Nat → List Char
  | 0, _ => []
  | fuel + 1, n =>
    if n < 10 then [Nat.digitChar n]
    else natToDigitsAux fuel (n / 10) ++ [Nat.digitChar (n % 10)]

/-- Decimal digits of `n`, most significant first: the character list of
JavaScript `n.toString()` for a nonnegative integer. -/
def natToDigits (n : Nat) : List Char := natToDigitsAux (n + 1) n

/-- JavaScript `n.toString()` for a nonnegative integer. -/
def natToString (n : Nat) : String := ⟨natToDigits n⟩

/-- JavaScript `n.toString()` for an integer (`-` sign for negatives). -/
def intToString (n : Int) : String :=
  if n < 0 then "-" ++ natToString n.natAbs else natToString n.toNat

/-- JavaScript `s.padStart(2, "0")`. -/
def padStart2 (s : String) : String :=
  if 2 ≤ s.length then s else ⟨List.replicate (2 - s.length) '0' ++ s.data⟩

/-- JavaScript `s.trim()`: drop leading and trailing whitespace. -/
def jsTrim (s : String) : String :=
  ⟨((s.data.dropWhile Char.isWhitespace).reverse.dropWhile Char.isWhitespace).reverse⟩

/-- JavaScript `s.toLowerCase()` (character-wise lowering). -/
def jsToLower (s : String) : String := ⟨s.data.map Char.toLower⟩

/-- Is `sub` a contiguous run inside `l`?  (JavaScript `includes` on the
character lists.) -/
def listIsInfix (sub : List Char) : List Char → Bool
  | [] => sub.isEmpty
  | c :: rest => sub.isPrefixOf (c :: rest) || listIsInfix sub rest

/-- JavaScript `s.includes(sub)`. -/
def jsIncludes (s sub : String) : Bool := listIsInfix sub.data s.data

/-- JavaScript `s.startsWith(p)`. -/
def jsStartsWith (s p : String) : Bool := p.data.isPrefixOf s.data

/-- A digit character, as matched by the regular-expression class `\d`. -/
def isDigitChar (c : Char) : Bool := 48 ≤ c.toNat && c.toNat ≤ 57

/-- Value of a big-endian digit-character list: JavaScript `Number(s)` on a
string of decimal digits. -/
def digitsToNat (l : List Char) : Nat :=
  l.foldl (fun a c => a * 10 + (c.toNat - 48)) 0

/-- JavaScript truthiness test `!x` on an optional number (modelling
`number | undefined`): true for `undefined` and for `0`. -/
def numFalsy : Option Int → Bool
  | none => true
  | some v => v == 0

/-- `interface DateParts { year; month; day }`. -/
structure DateParts where
  year : Int
  month : Int
  day : Int
deriving DecidableEq

/-- `interface MonthOption { value; label }`. -/
structure MonthOption where
  value : Int
  label : String
deriving DecidableEq

/-- `const DEFAULT_MIN_YEAR = 1901`. -/
def DEFAULT_MIN_YEAR : Int := 1901

/-- `toTwoDigit(value) = value.toString().padStart(2, "0")`. -/
def toTwoDigit (value : Int) : String := padStart2 (intToString value)

/-- `formatIsoDate(year, month, day)`. -/
def formatIsoDate (year month day : Int) : String :=
  intToString year ++ "-" ++ toTwoDigit month ++ "-" ++ toTwoDigit day

/-- `parseIsoDate(value)`: the regular expression
`^(\d{4})-(\d{2})-(\d{2})$` followed by the numeric range checks of the
source (`!year`, month and day bounds). -/
def parseIsoDate (value : String) : Option DateParts :=
  if value = "" then none
  else
    match value.data with
    | [c0, c1, c2, c3, h1, c4, c5, h2, c6, c7] =>
      if isDigitChar c0 && isDigitChar c1 && isDigitChar c2 && isDigitChar c3
          && h1 == '-' && isDigitChar c4 && isDigitChar c5 && h2 == '-'
          && isDigitChar c6 && isDigitChar c7 then
        let year := digitsToNat [c0, c1, c2, c3]
        let month := digitsToNat [c4, c5]
        let day := digitsToNat [c6, c7]
        if year = 0 ∨ month < 1 ∨ month > 12 ∨ day < 1 ∨ day > 31 then none
        else some ⟨year, month, day⟩
      else none
    | _ => none

/-- `isLeapYear(year)`. -/
def isLeapYear (year : Int) : Bool :=
  if year % 400 = 0 then true
  else if year % 100 = 0 then false
  else year % 4 == 0

/-- `getDaysInMonth(year, month)` (the `switch` of the source). -/
def getDaysInMonth (year month : Int) : Int :=
  if month = 2 then (if isLeapYear year then 29 else 28)
  else if month = 4 ∨ month = 6 ∨ month = 9 ∨ month = 11 then 30
  else 31

/-- `getMaxMonthForYear(selectedYear, today)`. -/
def getMaxMonthForYear (selectedYear : Option Int) (today : DateParts) : Int :=
  if numFalsy selectedYear then 12
  else if selectedYear = some today.year then today.month else 12

/-- `const FALLBACK_YEAR = 2001`. -/
def FALLBACK_YEAR : Int := 2001

/-- `getMaxDayForSelection(selectedYear, selectedMonth, today)`.  The
`!selectedMonth` guard covers both `undefined` and `0`; `??` keeps a
present `0`, and `===` against `today.year` fails for `undefined`. -/
def getMaxDayForSelection (selectedYear selectedMonth : Option Int)
    (today : DateParts) : Int :=
  match selectedMonth with
  | none => 31
  | some m =>
    if m = 0 then 31
    else
      let year := selectedYear.getD FALLBACK_YEAR
      let maxByMonth := getDaysInMonth year m
      if selectedYear = some today.year ∧ m = today.month then
        min today.day maxByMonth
      else maxByMonth

/-- `buildYearOptions(minYear, maxYear)`: the loop pushes
`maxYear, maxYear - 1, …` while the counter stays `≥ min minYear maxYear`. -/
def buildYearOptions (minYear maxYear : Int) : List Int :=
  let start := min minYear maxYear
  (List.range ((maxYear - start).toNat + 1)).map (fun i => maxYear - (i : Int))

/-- `getAvailableMonths(options, selectedYear, today)`. -/
def getAvailableMonths (options : List MonthOption) (selectedYear : Option Int)
    (today : DateParts) : List MonthOption :=
  let maxMonth := getMaxMonthForYear selectedYear today
  options.filter (fun option => option.value ≤ maxMonth)

/-- `getAvailableDays(selectedYear, selectedMonth, today)`; the
`Array.from({length: n}, (_, i) => i + 1)` calls become range maps. -/
def getAvailableDays (selectedYear selectedMonth : Option Int)
    (today : DateParts) : List Int :=
  if numFalsy selectedMonth then (List.range 31).map (fun i => (i : Int) + 1)
  else
    let maxDay := getMaxDayForSelection selectedYear selectedMonth today
    (List.range maxDay.toNat).map (fun i => (i : Int) + 1)

/-- `normalizeFilterText(value) = value.trim().toLowerCase()`. -/
def normalizeFilterText (value : String) : String := jsToLower (jsTrim value)

/-- `filterMonthOptions(options, input)`. -/
def filterMonthOptions (options : List MonthOption) (input : String) :
    List MonthOption :=
  let filter := normalizeFilterText input
  if filter = "" then options
  else options.filter (fun option => jsIncludes (jsToLower option.label) filter)

/-- `filterNumberOptions(options, input)`. -/
def filterNumberOptions (options : List Int) (input : String) : List Int :=
  let filter := normalizeFilterText input
  if filter = "" then options
  else options.filter (fun value => jsIncludes (intToString value) filter)

/-- `filterYearOptions(options, input)`. -/
def filterYearOptions (options : List Int) (input : String) : List Int :=
  let filter := normalizeFilterText input
  if filter = "" then options
  else options.filter (fun value => jsStartsWith (intToString value) filter)

/-! ### Spec-side definitions

Definitions in this block follow the wording of the specification (or of an
amended claim), to be compared with the embedded source functions above. -/

/-- Spec wording for `buildYearOptions`: descending integers from
`max(minYear, maxYear)` down to `min(minYear, maxYear)` inclusive. -/
def specYearOptions (minYear maxYear : Int) : List Int :=
  let hi := max minYear maxYear
  let lo := min minYear maxYear
  (List.range ((hi - lo).toNat + 1)).map (fun i => hi - (i : Int))

/-- Spec wording for `daysInMonth`: 31 for months in `{1,3,5,7,8,10,12}`,
30 for months in `{4,6,9,11}`, 28 or 29 for month 2 per `isLeapYear`. -/
def specDaysInMonth (year month : Int) : Int :=
  if month ∈ ([1, 3, 5, 7, 8, 10, 12] : List Int) then 31
  else if month ∈ ([4, 6, 9, 11] : List Int) then 30
  else if isLeapYear year then 29 else 28

/-- Amended spec for `getMaxMonthForYear`: 12 when no year is selected or
the selected year is 0; `today.month` when the selected year is nonzero and
equals `today.year`; 12 otherwise. -/
def specMaxMonthForYear (selectedYear : Option Int) (today : DateParts) : Int :=
  match selectedYear with
  | none => 12
  | some y => if y ≠ 0 ∧ y = today.year then today.month else 12

/-- Amended spec for `getMaxDayForSelection` on a selected month: the day
count of the effective year (the selected year, or the fallback year 2001
when the year is absent), clamped to `today.day` exactly when the selected
year is present and equals `today.year` and the month equals
`today.month`. -/
def specMaxDayForSelection (selectedYear : Option Int) (m : Int)
    (today : DateParts) : Int :=
  let eff := selectedYear.getD FALLBACK_YEAR
  let base := getDaysInMonth eff m
  if selectedYear = some today.year ∧ m = today.month then min today.day base
  else base

/-! ### Digit-rendering lemmas -/

/-- The fuel argument of `natToDigitsAux` is irrelevant once it exceeds the
number being rendered. -/
theorem natToDigitsAux_congr :
    ∀ f₁ f₂ n, n < f₁ → n < f₂ → natToDigitsAux f₁ n = natToDigitsAux f₂ n := by
  intro f₁
  induction f₁ with
  | zero => intro f₂ n h1 _; omega
  | succ f ih =>
    intro f₂ n h1 h2
    cases f₂ with
    | zero => omega
    | succ f' =>
      simp only [natToDigitsAux]
      by_cases h : n < 10
      · simp [h]
      · simp only [h, if_false]
        rw [ih f' (n / 10) (by omega) (by omega)]

/-- Unfolding equation for `natToDigits`. -/
theorem natToDigits_unfold (n : Nat) :
    natToDigits n =
      if n < 10 then [Nat.digitChar n]
      else natToDigits (n / 10) ++ [Nat.digitChar (n % 10)] := by
  show natToDigitsAux (n + 1) n = _
  simp only [natToDigitsAux]
  by_cases h : n < 10
  · simp [h]
  · simp only [h, if_false]
    rw [natToDigitsAux_congr n (n / 10 + 1) (n / 10) (by omega) (by omega)]
    rfl

/-- `Nat.digitChar` of a digit has the expected code point. -/
theorem digitChar_toNat {n : Nat} (h : n < 10) : (Nat.digitChar n).toNat = 48 + n := by
  interval_cases n <;> rfl

/-- `Nat.digitChar` of a digit satisfies the `\d` character class. -/
theorem isDigitChar_digitChar {n : Nat} (h : n < 10) :
    isDigitChar (Nat.digitChar n) = true := by
  simp [isDigitChar, digitChar_toNat h]
  omega

/-- Appending one digit multiplies the value by ten and adds the digit. -/
theorem digitsToNat_append (l : List Char) (c : Char) :
    digitsToNat (l ++ [c]) = digitsToNat l * 10 + (c.toNat - 48) := by
  simp [digitsToNat, List.foldl_append]

/-- Rendering then reading a natural number is the identity. -/
theorem digitsToNat_natToDigits : ∀ n, digitsToNat (natToDigits n) = n := by
  intro n
  induction n using Nat.strong_induction_on with
  | _ n ih =>
    rw [natToDigits_unfold]
    by_cases h : n < 10
    · simp [h, digitsToNat, digitChar_toNat h]
    · simp only [h, if_false]
      rw [digitsToNat_append, ih (n / 10) (by omega)]
      have h10 : n % 10 < 10 := Nat.mod_lt n (by norm_num)
      rw [digitChar_toNat h10]
      omega

/-- Every rendered character is a digit. -/
theorem natToDigits_digits : ∀ n, ∀ c ∈ natToDigits n, isDigitChar c = true := by
  intro n
  induction n using Nat.strong_induction_on with
  | _ n ih =>
    intro c hc
    rw [natToDigits_unfold] at hc
    by_cases h : n < 10
    · simp [h] at hc
      rw [hc]
      exact isDigitChar_digitChar h
    · simp only [h, if_false, List.mem_append, List.mem_singleton] at hc
      rcases hc with hc | hc
      · exact ih (n / 10) (by omega) c hc
      · rw [hc]
        exact isDigitChar_digitChar (Nat.mod_lt n (by norm_num))

/-- One digit for numbers below ten. -/
theorem natToDigits_length_lt10 {n : Nat} (h : n < 10) :
    (natToDigits n).length = 1 := by
  rw [natToDigits_unfold]
  simp [h]

/-- One more digit than the quotient by ten, for numbers of ten and above. -/
theorem natToDigits_length_ge10 {n : Nat} (h : 10 ≤ n) :
    (natToDigits n).length = (natToDigits (n / 10)).length + 1 := by
  rw [natToDigits_unfold]
  simp [Nat.not_lt.mpr h]

/-- Four-digit numbers render to four characters. -/
theorem natToDigits_length_four {n : Nat} (h1 : 1000 ≤ n) (h2 : n ≤ 9999) :
    (natToDigits n).length = 4 := by
  rw [natToDigits_length_ge10 (by omega),
    natToDigits_length_ge10 (by omega : 10 ≤ n / 10),
    natToDigits_length_ge10 (by omega : 10 ≤ n / 10 / 10),
    natToDigits_length_lt10 (by omega : n / 10 / 10 / 10 < 10)]

/-- A list of length two is literally a pair. -/
theorem list_len2 {α : Type} : ∀ l : List α, l.length = 2 → ∃ a b, l = [a, b] := by
  intro l h
  match l with
  | [a, b] => exact ⟨a, b, rfl⟩

/-- A list of length four is literally a quadruple. -/
theorem list_len4 {α : Type} : ∀ l : List α, l.length = 4 →
    ∃ a b c d, l = [a, b, c, d] := by
  intro l h
  match l with
  | [a, b, c, d] => exact ⟨a, b, c, d, rfl⟩

/-! ### String-level helper lemmas -/

/-- Appending strings appends their character lists. -/
@[simp] theorem data_append (s t : String) : (s ++ t).data = s.data ++ t.data := by
  cases s
  cases t
  rfl

/-- The character list of a rendered natural number. -/
@[simp] theorem natToString_data (n : Nat) : (natToString n).data = natToDigits n := rfl

/-- A string equals the empty string exactly when its character list is empty. -/
theorem eq_empty_iff_data (s : String) : s = "" ↔ s.data = [] := by
  cases s with
  | mk l =>
    constructor
    · intro h
      have := congrArg String.data h
      simpa using this
    · intro h
      simp only at h
      rw [h]

/-- A four-digit number renders to four explicit digit characters that read
back to the number. -/
theorem natToDigits_four (n : Nat) (h1 : 1000 ≤ n) (h2 : n ≤ 9999) :
    ∃ a b c d, natToDigits n = [a, b, c, d] ∧
      isDigitChar a = true ∧ isDigitChar b = true ∧
      isDigitChar c = true ∧ isDigitChar d = true ∧
      digitsToNat [a, b, c, d] = n := by
  obtain ⟨a, b, c, d, hl⟩ := list_len4 _ (natToDigits_length_four h1 h2)
  refine ⟨a, b, c, d, hl, ?_, ?_, ?_, ?_, ?_⟩
  · exact natToDigits_digits n a (by rw [hl]; simp)
  · exact natToDigits_digits n b (by rw [hl]; simp)
  · exact natToDigits_digits n c (by rw [hl]; simp)
  · exact natToDigits_digits n d (by rw [hl]; simp)
  · rw [← hl]
    exact digitsToNat_natToDigits n

/-- `toTwoDigit` of a number in `[0, 99]` yields two explicit digit
characters that read back to the number. -/
theorem toTwoDigit_data (m : Int) (h0 : 0 ≤ m) (h99 : m ≤ 99) :
    ∃ a b, (toTwoDigit m).data = [a, b] ∧
      isDigitChar a = true ∧ isDigitChar b = true ∧
      digitsToNat [a, b] = m.toNat := by
  have hm : intToString m = natToString m.toNat := by
    rw [intToString, if_neg (by omega)]
  rw [toTwoDigit, hm]
  by_cases h : m.toNat < 10
  · have hdig : natToDigits m.toNat = [Nat.digitChar m.toNat] := by
      rw [natToDigits_unfold]
      simp [h]
    have hlen : (natToString m.toNat).length = 1 := by
      show (natToString m.toNat).data.length = 1
      rw [natToString_data, hdig]
      rfl
    refine ⟨'0', Nat.digitChar m.toNat, ?_, by decide, isDigitChar_digitChar h, ?_⟩
    · rw [padStart2, if_neg (by omega), hlen]
      simp [natToString_data, hdig, List.replicate]
    · simp [digitsToNat, digitChar_toNat h]
  · have h10 : 10 ≤ m.toNat := by omega
    have hlen : (natToDigits m.toNat).length = 2 := by
      rw [natToDigits_length_ge10 h10,
        natToDigits_length_lt10 (by omega : m.toNat / 10 < 10)]
    obtain ⟨a, b, hl⟩ := list_len2 _ hlen
    refine ⟨a, b, ?_, ?_, ?_, ?_⟩
    · rw [padStart2, if_pos ?_]
      · rw [natToString_data, hl]
      · show 2 ≤ (natToString m.toNat).data.length
        rw [natToString_data, hlen]
    · exact natToDigits_digits _ a (by rw [hl]; simp)
    · exact natToDigits_digits _ b (by rw [hl]; simp)
    · rw [← hl]
      exact digitsToNat_natToDigits _

/-- `parseIsoDate` on a string of the shape `DDDD-DD-DD` (digit characters
`D`) reduces to the range checks on the three digit groups. -/
theorem parseIsoDate_pattern (s : String) (c0 c1 c2 c3 c4 c5 c6 c7 : Char)
    (hs : s.data = [c0, c1, c2, c3, '-', c4, c5, '-', c6, c7])
    (h0 : isDigitChar c0 = true) (h1 : isDigitChar c1 = true)
    (h2 : isDigitChar c2 = true) (h3 : isDigitChar c3 = true)
    (h4 : isDigitChar c4 = true) (h5 : isDigitChar c5 = true)
    (h6 : isDigitChar c6 = true) (h7 : isDigitChar c7 = true) :
    parseIsoDate s =
      if digitsToNat [c0, c1, c2, c3] = 0 ∨ digitsToNat [c4, c5] < 1 ∨
          digitsToNat [c4, c5] > 12 ∨ digitsToNat [c6, c7] < 1 ∨
          digitsToNat [c6, c7] > 31 then none
      else some ⟨(digitsToNat [c0, c1, c2, c3] : Int),
        (digitsToNat [c4, c5] : Int), (digitsToNat [c6, c7] : Int)⟩ := by
  have hne : ¬ s = "" := by
    rw [eq_empty_iff_data, hs]
    simp
  rw [parseIsoDate, if_neg hne]
  cases s with
  | mk l =>
    simp only at hs
    subst hs
    simp [h0, h1, h2, h3, h4, h5, h6, h7]

/-- Every month length is at most 31. -/
theorem getDaysInMonth_le (y m : Int) : getDaysInMonth y m ≤ 31 := by
  rw [getDaysInMonth]
  split_ifs <;> norm_num

/-! ### Claim theorems -/

/-- C1 (counterexample): the year field of `formatIsoDate` is not padded,
so the positive year 999 renders with three digits and `parseIsoDate`
rejects the result instead of returning `{999, 1, 1}`. -/
theorem roundTrip_fails_for_999 :
    parseIsoDate (formatIsoDate 999 1 1) = none ∧
    (none : Option DateParts) ≠ some ⟨999, 1, 1⟩ := by
  constructor
  · decide
  · decide

/-- C1 (amended): for every valid date whose year has exactly four decimal
digits (`1000 ≤ y ≤ 9999`), `parseIsoDate (formatIsoDate y m d)` returns
`{y, m, d}`; for such years the format is fixed-width `YYYY-MM-DD`. -/
theorem parse_format_roundTrip (y m d : Int)
    (hy1 : 1000 ≤ y) (hy2 : y ≤ 9999) (hm1 : 1 ≤ m) (hm2 : m ≤ 12)
    (hd1 : 1 ≤ d) (hd2 : d ≤ getDaysInMonth y m) :
    parseIsoDate (formatIsoDate y m d) = some ⟨y, m, d⟩ := by
  have hd31 : d ≤ 31 := le_trans hd2 (getDaysInMonth_le y m)
  obtain ⟨a, b, c, e, hys, ha, hb, hc, he, hyv⟩ :=
    natToDigits_four y.toNat (by omega) (by omega)
  obtain ⟨f, g, hmd, hf, hg, hmv⟩ := toTwoDigit_data m (by omega) (by omega)
  obtain ⟨i, j, hdd, hi, hj, hdv⟩ := toTwoDigit_data d (by omega) (by omega)
  have hys' : (intToString y).data = [a, b, c, e] := by
    rw [intToString, if_neg (by omega : ¬ y < 0), natToString_data, hys]
  have hformat : (formatIsoDate y m d).data = [a, b, c, e, '-', f, g, '-', i, j] := by
    simp only [formatIsoDate, data_append, hys', hmd, hdd]
    rfl
  rw [parseIsoDate_pattern _ a b c e f g i j hformat ha hb hc he hf hg hi hj,
    hyv, hmv, hdv, if_neg (by omega)]
  simp only [Option.some.injEq, DateParts.mk.injEq]
  refine ⟨by omega, by omega, by omega⟩

/-- C1 (witness): the amended round trip applied at 2024-02-29. -/
theorem parse_format_roundTrip_witness :
    (1000 : Int) ≤ 2024 ∧ (2024 : Int) ≤ 9999 ∧ (1 : Int) ≤ 2 ∧ (2 : Int) ≤ 12 ∧
    (1 : Int) ≤ 29 ∧ (29 : Int) ≤ getDaysInMonth 2024 2 ∧
    parseIsoDate (formatIsoDate 2024 2 29) = some ⟨2024, 2, 29⟩ :=
  ⟨by norm_num, by norm_num, by norm_num, by norm_num, by norm_num, by decide,
    parse_format_roundTrip 2024 2 29 (by norm_num) (by norm_num) (by norm_num)
      (by norm_num) (by norm_num) (by decide)⟩

/-- C4: `parseIsoDate` succeeds exactly on strings of the shape
`DDDD-DD-DD` (decimal digits `D`) whose year group is nonzero, month group
is within 1–12 and day group within 1–31; it does not check the day against
the month (`"2023-02-30"` parses), and malformed or empty inputs return
`none`. -/
theorem parseIsoDate_characterization :
    (∀ s : String, (parseIsoDate s).isSome = true ↔
      ∃ c0 c1 c2 c3 c4 c5 c6 c7,
        s.data = [c0, c1, c2, c3, '-', c4, c5, '-', c6, c7] ∧
        isDigitChar c0 = true ∧ isDigitChar c1 = true ∧
        isDigitChar c2 = true ∧ isDigitChar c3 = true ∧
        isDigitChar c4 = true ∧ isDigitChar c5 = true ∧
        isDigitChar c6 = true ∧ isDigitChar c7 = true ∧
        digitsToNat [c0, c1, c2, c3] ≠ 0 ∧
        1 ≤ digitsToNat [c4, c5] ∧ digitsToNat [c4, c5] ≤ 12 ∧
        1 ≤ digitsToNat [c6, c7] ∧ digitsToNat [c6, c7] ≤ 31) ∧
    parseIsoDate "2023-02-30" = some ⟨2023, 2, 30⟩ ∧
    parseIsoDate "" = none ∧ parseIsoDate "abc" = none ∧
    parseIsoDate "2024-13-01" = none ∧ parseIsoDate "2024/01/01" = none := by
  refine ⟨?_, by decide, by decide, by decide, by decide, by decide⟩
  intro s
  constructor
  · intro hsome
    simp only [parseIsoDate] at hsome
    by_cases hemp : s = ""
    · rw [if_pos hemp] at hsome
      simp at hsome
    rw [if_neg hemp] at hsome
    split at hsome
    next c0 c1 c2 c3 hh1 c4 c5 hh2 c6 c7 heq =>
      split at hsome
      next hguard =>
        simp only [Bool.and_eq_true, beq_iff_eq] at hguard
        obtain ⟨⟨⟨⟨⟨⟨⟨⟨⟨g0, g1⟩, g2⟩, g3⟩, gd1⟩, g4⟩, g5⟩, gd2⟩, g6⟩, g7⟩ := hguard
        subst gd1
        subst gd2
        split at hsome
        next => simp at hsome
        next hrange =>
          exact ⟨c0, c1, c2, c3, c4, c5, c6, c7, heq, g0, g1, g2, g3, g4, g5, g6, g7,
            by omega, by omega, by omega, by omega, by omega⟩
      next => simp at hsome
    next => simp at hsome
  · rintro ⟨c0, c1, c2, c3, c4, c5, c6, c7, hdata, g0, g1, g2, g3, g4, g5, g6, g7,
      hy, hm1, hm2, hd1, hd2⟩
    rw [parseIsoDate_pattern s c0 c1 c2 c3 c4 c5 c6 c7 hdata g0 g1 g2 g3 g4 g5 g6 g7,
      if_neg (by omega)]
    rfl

/-- C2 (counterexample): with `minYear = 2010 > maxYear = 2005` the loop
starts at `maxYear` and stops immediately, producing the singleton
`[2005]`, not the descending run from `max` down to `min`. -/
theorem buildYearOptions_misconfigured_cex :
    buildYearOptions 2010 2005 = [2005] ∧
    specYearOptions 2010 2005 = [2010, 2009, 2008, 2007, 2006, 2005] ∧
    buildYearOptions 2010 2005 ≠ specYearOptions 2010 2005 := by
  refine ⟨by decide, by decide, by decide⟩

/-- C2 (amended): `buildYearOptions` returns the descending consecutive
integers from `maxYear` (not from `max(minYear, maxYear)`) down to
`min(minYear, maxYear)`; when `minYear > maxYear` this is the singleton
`[maxYear]`. -/
theorem buildYearOptions_spec (minYear maxYear : Int) :
    buildYearOptions minYear maxYear =
      specYearOptions (min minYear maxYear) maxYear := by
  simp only [buildYearOptions, specYearOptions]
  rw [max_eq_right (min_le_right minYear maxYear),
    min_eq_left (min_le_right minYear maxYear)]

/-- C3 (counterexample): with the year absent, the effective (fallback)
year 2001 equals `today.year` and the month matches, yet the code does not
clamp: it returns 31 instead of `min(today.day, 31) = 10`. -/
theorem fallback_year_no_clamp_cex :
    getMaxDayForSelection none (some 5) ⟨2001, 5, 10⟩ = 31 ∧
    FALLBACK_YEAR = (⟨2001, 5, 10⟩ : DateParts).year ∧
    min (⟨2001, 5, 10⟩ : DateParts).day (getDaysInMonth FALLBACK_YEAR 5) = 10 ∧
    (31 : Int) ≠ 10 := by
  refine ⟨by decide, by decide, by decide, by decide⟩

/-- C3 (amended): for a selected month in 1–12, `getMaxDayForSelection`
returns the day count of the effective year (selected year, or fallback
2001 when absent), clamped to `today.day` exactly when the selected year is
present and equals `today.year` and the month equals `today.month`; an
absent year never triggers the clamp. -/
theorem getMaxDayForSelection_spec (selectedYear : Option Int) (m : Int)
    (today : DateParts) (h1 : 1 ≤ m) (h2 : m ≤ 12) :
    getMaxDayForSelection selectedYear (some m) today =
      specMaxDayForSelection selectedYear m today := by
  simp only [getMaxDayForSelection, specMaxDayForSelection]
  rw [if_neg (by omega : ¬ m = 0)]

/-- C3 (witness): the amended claim applied at a present current year. -/
theorem getMaxDayForSelection_spec_witness :
    (1 : Int) ≤ 6 ∧ (6 : Int) ≤ 12 ∧
    getMaxDayForSelection (some 2024) (some 6) ⟨2024, 6, 10⟩ =
      specMaxDayForSelection (some 2024) 6 ⟨2024, 6, 10⟩ :=
  ⟨by norm_num, by norm_num,
    getMaxDayForSelection_spec (some 2024) 6 ⟨2024, 6, 10⟩ (by norm_num) (by norm_num)⟩

/-- C5: `isLeapYear` decides the proleptic Gregorian rule for every
integer year, with the spec's concrete sample values. -/
theorem isLeapYear_iff :
    (∀ y : Int, isLeapYear y = true ↔
      ((400 : Int) ∣ y ∨ ((4 : Int) ∣ y ∧ ¬ (100 : Int) ∣ y))) ∧
    isLeapYear 2000 = true ∧ isLeapYear 1900 = false ∧
    isLeapYear 2024 = true ∧ isLeapYear 2023 = false := by
  refine ⟨?_, by decide, by decide, by decide, by decide⟩
  intro y
  rw [isLeapYear]
  split_ifs with h1 h2
  · simp only [true_iff]
    omega
  · simp only [false_iff]
    omega
  · simp only [beq_iff_eq]
    omega

/-- C6: for months 1–12, `getDaysInMonth` agrees with the spec table
(31 for `{1,3,5,7,8,10,12}`, 30 for `{4,6,9,11}`, 28/29 for February per
`isLeapYear`). -/
theorem getDaysInMonth_spec (y m : Int) (h1 : 1 ≤ m) (h2 : m ≤ 12) :
    getDaysInMonth y m = specDaysInMonth y m := by
  interval_cases m <;> simp [getDaysInMonth, specDaysInMonth]

/-- C6 (witness): the spec table applied at February 2024. -/
theorem getDaysInMonth_spec_witness :
    (1 : Int) ≤ 2 ∧ (2 : Int) ≤ 12 ∧ getDaysInMonth 2024 2 = specDaysInMonth 2024 2 :=
  ⟨by norm_num, by norm_num, getDaysInMonth_spec 2024 2 (by norm_num) (by norm_num)⟩

/-- C7 (counterexample): a present selected year 0 with `today.year = 0`
satisfies "selectedYear equals today.year", yet the code treats 0 as
falsy and returns 12 instead of `today.month = 5`. -/
theorem getMaxMonthForYear_zero_year_cex :
    getMaxMonthForYear (some 0) ⟨0, 5, 1⟩ = 12 ∧
    (⟨0, 5, 1⟩ : DateParts).year = 0 ∧ (⟨0, 5, 1⟩ : DateParts).month = 5 ∧
    (12 : Int) ≠ 5 := by
  refine ⟨by decide, by decide, by decide, by decide⟩

/-- C7 (amended): `getMaxMonthForYear` returns 12 when no year is selected
or the selected year is 0; `today.month` when the selected year is nonzero
and equals `today.year`; and 12 otherwise. -/
theorem getMaxMonthForYear_spec (selectedYear : Option Int) (today : DateParts) :
    getMaxMonthForYear selectedYear today = specMaxMonthForYear selectedYear today := by
  cases selectedYear with
  | none => rfl
  | some y =>
    by_cases h : y = 0
    · subst h
      rfl
    · simp [getMaxMonthForYear, specMaxMonthForYear, numFalsy, h, Option.some.injEq]

/-- Normalizing a query whose trimmed form is empty yields the empty
string. -/
theorem normalizeFilterText_of_trim_empty {q : String} (h : jsTrim q = "") :
    normalizeFilterText q = "" := by
  rw [normalizeFilterText, h]
  rfl

/-- Normalizing a query whose trimmed form is nonempty yields a nonempty
string (lowercasing is character-wise and preserves length). -/
theorem normalizeFilterText_ne_empty {q : String} (h : jsTrim q ≠ "") :
    normalizeFilterText q ≠ "" := by
  intro hc
  apply h
  rw [eq_empty_iff_data]
  have hdata : (normalizeFilterText q).data = [] := by rw [hc]
  simpa [normalizeFilterText, jsToLower] using hdata

/-- C8: on a query whose trimmed form is empty, all three filters return
the input list unchanged. -/
theorem filters_identity_on_empty_query (monthOpts : List MonthOption)
    (numberOpts yearOpts : List Int) (q : String) (h : jsTrim q = "") :
    filterMonthOptions monthOpts q = monthOpts ∧
    filterNumberOptions numberOpts q = numberOpts ∧
    filterYearOptions yearOpts q = yearOpts := by
  have hn := normalizeFilterText_of_trim_empty h
  refine ⟨?_, ?_, ?_⟩ <;>
    simp [filterMonthOptions, filterNumberOptions, filterYearOptions, hn]

/-- C8 (witness): the identity behaviour on a whitespace-only query. -/
theorem filters_identity_on_empty_query_witness :
    jsTrim "  " = "" ∧
    (filterMonthOptions [⟨1, "January"⟩] "  " = [⟨1, "January"⟩] ∧
     filterNumberOptions [3, 13] "  " = [3, 13] ∧
     filterYearOptions [2001] "  " = [2001]) :=
  ⟨by decide,
    filters_identity_on_empty_query [⟨1, "January"⟩] [3, 13] [2001] "  " (by decide)⟩

/-- C9: on a non-trivial query, `filterYearOptions` keeps, in input order
(a sublist of the input), exactly the values whose decimal rendering starts
with the normalized query; concretely the spec example
`filterYearOptions(buildYearOptions(1901, 1905), "19")` returns the full
descending list. -/
theorem filterYearOptions_prefix_spec (options : List Int) (q : String)
    (h : jsTrim q ≠ "") :
    List.Sublist (filterYearOptions options q) options ∧
    (∀ v : Int, v ∈ filterYearOptions options q ↔
      v ∈ options ∧ jsStartsWith (intToString v) (normalizeFilterText q) = true) ∧
    filterYearOptions (buildYearOptions 1901 1905) "19" =
      [1905, 1904, 1903, 1902, 1901] := by
  have hn := normalizeFilterText_ne_empty h
  refine ⟨?_, ?_, by decide⟩
  · simp only [filterYearOptions]
    rw [if_neg hn]
    exact List.filter_sublist _
  · intro v
    simp only [filterYearOptions]
    rw [if_neg hn]
    simp [List.mem_filter]

/-- C9 (witness): the prefix filter applied at the spec's example query. -/
theorem filterYearOptions_prefix_spec_witness :
    jsTrim "19" ≠ "" ∧
    List.Sublist (filterYearOptions [1905, 1810] "19") [1905, 1810] ∧
    filterYearOptions (buildYearOptions 1901 1905) "19" =
      [1905, 1904, 1903, 1902, 1901] :=
  ⟨by decide, (filterYearOptions_prefix_spec [1905, 1810] "19" (by decide)).1,
    (filterYearOptions_prefix_spec [1905, 1810] "19" (by decide)).2.2⟩

/-- C10: a selected year or month equal to 0 behaves like an absent
selection: the month cap is 12, the day cap is 31, and the day list is the
full `1..31`. -/
theorem zero_selection_treated_as_absent (today : DateParts) (sy : Option Int) :
    getMaxMonthForYear (some 0) today = 12 ∧
    getMaxDayForSelection sy (some 0) today = 31 ∧
    getAvailableDays sy (some 0) today =
      [1, 2, 3, 4, 5, 6, 7, 8, 9, 10, 11, 12, 13, 14, 15, 16, 17, 18, 19, 20,
       21, 22, 23, 24, 25, 26, 27, 28, 29, 30, 31] := by
  refine ⟨rfl, rfl, rfl⟩

end BirthdayPicker
